import Mathlib

/-!
Verification of the Fast Calvo trainer wrapper (`fast_calvo_trainer.py`).

The development shallowly embeds `FastCalvoTrainer.run_my_task`:
images are matrices of natural numbers (we keep only the alpha channel
for the 4-channel annotation layers, and an opaque pixel matrix for the
base image), numpy boolean arrays are `BMat`, and the numpy 2-D
broadcasting rules of `np.logical_and` are modelled exactly.  The
process-wide effects the wrapper touches (the `sys.stdout`/`sys.stderr`
bindings, the task logger's handler list, the single call into the
external training engine) are threaded explicitly through `run_my_task`,
which returns the final state of each together with the Python result
(normal return value or raised exception).
-/

namespace Calvo

/-- A 2-D matrix of natural numbers: the alpha channel of a decoded
RGBA layer (entries are the alpha values, `255` = fully opaque), or an
opaque pixel buffer for the 3-channel base image.  `entry` is total;
only indices below `rows`/`cols` are meaningful. -/
structure Mat where
  rows : Nat
  cols : Nat
  entry : Nat → Nat → Nat

/-- A 2-D boolean matrix, as produced by numpy comparisons such as
`layer[:, :, 3] == 255`. -/
structure BMat where
  rows : Nat
  cols : Nat
  entry : Nat → Nat → Bool

/-- Per-pixel test that the alpha channel is fully opaque:
`img[:, :, 3] == 255`. -/
def alphaEq255 (img : Mat) : BMat :=
  ⟨img.rows, img.cols, fun i j => img.entry i j == 255⟩

/-- numpy broadcast of one dimension: equal sizes broadcast to
themselves, a size of 1 stretches to the other size, anything else is a
broadcast failure. -/
def bcast (a b : Nat) : Option Nat :=
  if a = b then some a
  else if a = 1 then some b
  else if b = 1 then some a
  else none

/-- Lookup into a boolean matrix with numpy broadcast semantics: a
dimension of size 1 always reads index 0. -/
def bGet (m : BMat) (i j : Nat) : Bool :=
  m.entry (if m.rows = 1 then 0 else i) (if m.cols = 1 then 0 else j)

/-- The behaviour of `np.logical_and` on two 2-D boolean arrays: broadcast the shapes,
then take the pointwise conjunction; non-broadcastable shapes raise a
`ValueError`. -/
def logical_and (x y : BMat) : Except String BMat :=
  match bcast x.rows y.rows, bcast x.cols y.cols with
  | some h, some w => .ok ⟨h, w, fun i j => bGet x i j && bGet y i j⟩
  | _, _ => .error "ValueError: operands could not be broadcast together"

/-- A Rodan resource: the wrapper only ever reads its filesystem path. -/
structure Resource where
  resource_path : String
deriving DecidableEq, Repr

/-- The input ports of the job.  `Image`, the background layer, the
music-symbol layer and the selected-regions layer are required (cardinality
exactly 1); the staff-lines and text layers are optional (cardinality 0..1),
and their key is present in the `inputs` dict iff the port was connected. -/
structure Inputs where
  image : Resource
  background : Resource
  symbols : Resource
  regions : Resource
  staffLines : Option Resource
  text : Option Resource

/-- The output ports of the job.  `Log File` is modelled as the list of
resources the host put in `outputs['Log File']` (the code tests its
length); the staff-lines and text model slots are optional and their key
is present iff requested. -/
structure Outputs where
  backgroundModel : Resource
  musicSymbolModel : Resource
  logFile : List Resource
  staffLinesModel : Option Resource
  textModel : Option Resource

/-- The validated scalar settings of the job. -/
structure Settings where
  batchSize : Nat
  patchHeight : Nat
  patchWidth : Nat
  maxEpochs : Nat
  maxSamplesPerClass : Nat

/-- One binding of a process output stream (`sys.stdout` or
`sys.stderr`): either a native stream object, or the proxy installed by
`redirect_stdouts_to_logger`. -/
inductive StreamTarget where
  | native : Nat → StreamTarget
  | loggerProxy : StreamTarget
deriving DecidableEq, Repr

/-- The pair (`sys.stdout`, `sys.stderr`). -/
abbrev Streams := StreamTarget × StreamTarget

/-- The arguments of the single `training.train_msae(...)` call. -/
structure TrainerCall where
  input_image : Mat
  gt : List (String × BMat)
  height : Nat
  width : Nat
  output_path : List (String × String)
  epochs : Nat
  max_samples_per_class : Nat
  batch_size : Nat

/-- Everything one invocation of `run_my_task` depends on: its ports and
settings, the decoded content of each image file, whether creating a
`logging.FileHandler` at a given path succeeds, and the outcome of the
external trainer (`.ok status` for a normal return, `.error` for a
raised exception). -/
structure Env where
  inputs : Inputs
  outputs : Outputs
  settings : Settings
  loadImage : String → Mat
  loadAlpha : String → Mat
  fileHandlerOk : String → Bool
  trainResult : Except String Bool

/-- The observable outcome of one invocation: the Python-level result
(`.ok b` = returned `b`, `.error e` = raised), the list of calls issued
to the external trainer, the final (`stdout`, `stderr`) bindings, the
final handler list of the task logger, and whether
`redirect_stdouts_to_logger` was executed. -/
structure RunOut where
  result : Except String Bool
  calls : List TrainerCall
  streams : Streams
  handlers : List String
  redirected : Bool

/-- Alpha mask of the selected-regions layer:
`regions_mask = (regions[:, :, 3] == 255)`. -/
def regionsMask (env : Env) : BMat :=
  alphaEq255 (env.loadAlpha env.inputs.regions.resource_path)

/-- Alpha mask of the music-symbol layer:
`notes_mask = (notes[:, :, 3] == 255)`. -/
def notesMask (env : Env) : BMat :=
  alphaEq255 (env.loadAlpha env.inputs.symbols.resource_path)

/-- Alpha mask of the background layer:
`gt['background'] = (background[:, :, 3] == 255)`. -/
def backgroundMask (env : Env) : BMat :=
  alphaEq255 (env.loadAlpha env.inputs.background.resource_path)

/-- Alpha mask of an arbitrary layer resource. -/
def layerMask (env : Env) (r : Resource) : BMat :=
  alphaEq255 (env.loadAlpha r.resource_path)

/-- The optional-class step of the ground-truth loop: when the optional
port `r?` is connected, load its layer, threshold the alpha channel and
AND it with the regions mask, producing the `gt` entry for `name`;
when the port is absent, contribute nothing. -/
def optClassGt (env : Env) : Option Resource → String → Except String (List (String × BMat))
  | none, _ => .ok []
  | some r, name =>
    match logical_and (layerMask env r) (regionsMask env) with
    | .error e => .error e
    | .ok m => .ok [(name, m)]

/-- The categorical ground-truth dictionary built by `run_my_task`
(lines 102-130): `gt['symbols']` is the symbols mask ANDed with the
regions mask, `gt['background']` is the background alpha mask alone, and
`gt['staff']` / `gt['text']` are added iff the corresponding optional
input port is present, each ANDed with the regions mask.  An exception
from a numpy broadcast failure propagates. -/
def deriveGt (env : Env) : Except String (List (String × BMat)) :=
  match logical_and (notesMask env) (regionsMask env) with
  | .error e => .error e
  | .ok symbolsGt =>
    match optClassGt env env.inputs.staffLines "staff" with
    | .error e => .error e
    | .ok staffPart =>
      match optClassGt env env.inputs.text "text" with
      | .error e => .error e
      | .ok textPart =>
        .ok ([("symbols", symbolsGt), ("background", backgroundMask env)]
              ++ staffPart ++ textPart)

/-- The `output_models_path` dictionary (lines 116-136): background and
symbols always, staff and text iff the corresponding output port key is
present in `outputs`. -/
def buildOutputPaths (o : Outputs) : List (String × String) :=
  [("background", o.backgroundModel.resource_path),
   ("symbols", o.musicSymbolModel.resource_path)]
  ++ (match o.staffLinesModel with
      | some r => [("staff", r.resource_path)]
      | none => [])
  ++ (match o.textModel with
      | some r => [("text", r.resource_path)]
      | none => [])

/-- The argument record of the one `training.train_msae` call
(lines 139-148). -/
def mkCall (env : Env) (g : List (String × BMat)) : TrainerCall :=
  { input_image := env.loadImage env.inputs.image.resource_path
    gt := g
    height := env.settings.patchHeight
    width := env.settings.patchWidth
    output_path := buildOutputPaths env.outputs
    epochs := env.settings.maxEpochs
    max_samples_per_class := env.settings.maxSamplesPerClass
    batch_size := env.settings.batchSize }

/-- The `try` block of `run_my_task` (lines 92-153).  On entry the
output streams are redirected into the logger; the `finally` clause
restores them to `oldouts` on every exit path, so every branch below
reports `streams := s0`.  `h` is the logger's handler list after the
optional `addHandler`. -/
def runBody (env : Env) (s0 : Streams) (h : List String) : RunOut :=
  match deriveGt env with
  | .error e => ⟨.error e, [], s0, h, true⟩
  | .ok gt =>
    match env.trainResult with
    | .error e => ⟨.error e, [mkCall env gt], s0, h, true⟩
    | .ok _status => ⟨.ok true, [mkCall env gt], s0, h, true⟩

/-- The whole of `run_my_task(self, inputs, settings, outputs)`
(lines 84-153).  `s0` is the pre-invocation (`stdout`, `stderr`) pair saved into
`oldouts`; `h0` is the pre-invocation handler list of the task logger.
Before the `try` block: if `outputs['Log File']` is non-empty a
`logging.FileHandler` is created at its first resource path — a failure
there (e.g. unwritable path) raises before any redirection — and
appended to the logger's handlers.  The handler is never removed on any
path; only the stream bindings are restored by the `finally`. -/
def run_my_task (env : Env) (s0 : Streams) (h0 : List String) : RunOut :=
  match env.outputs.logFile with
  | [] => runBody env s0 h0
  | r :: _ =>
    if env.fileHandlerOk r.resource_path then
      runBody env s0 (h0 ++ [r.resource_path])
    else
      ⟨.error "IOError: could not open log file", [], s0, h0, false⟩

/-- The ground-truth dictionary of a successful derivation (`[]` when
the derivation raised). -/
def gtD (env : Env) : List (String × BMat) :=
  match deriveGt env with
  | .ok l => l
  | .error _ => []

/-- Whether attaching the log sink succeeds: vacuously true when
`outputs['Log File']` is empty. -/
def logSetupOk (env : Env) : Bool :=
  match env.outputs.logFile with
  | [] => true
  | r :: _ => env.fileHandlerOk r.resource_path

/-- Two boolean matrices have the same shape. -/
def sameShapeB (a b : BMat) : Bool :=
  a.rows == b.rows && a.cols == b.cols

/-- Whether combining two masks with `np.logical_and` raises: true iff
some dimension pair is not broadcast-compatible. -/
def maskBcastFails (x y : BMat) : Bool :=
  match bcast x.rows y.rows, bcast x.cols y.cols with
  | some _, some _ => false
  | _, _ => true

/-- Broadcast failure of an optional layer's mask against the regions
mask; false when the port is absent. -/
def optBcastFails (env : Env) : Option Resource → Bool
  | none => false
  | some r => maskBcastFails (layerMask env r) (regionsMask env)

/-- Whether any supplied class layer (symbols, staff or text) fails to
broadcast against the selected-regions layer. -/
def someLayerBcastFails (env : Env) : Bool :=
  maskBcastFails (notesMask env) (regionsMask env)
  || optBcastFails env env.inputs.staffLines
  || optBcastFails env env.inputs.text

/-- All masks combined with the regions mask have its exact shape (the
well-formedness precondition of an invocation: every layer decodes to
the base image's dimensions). -/
def shapesOk (env : Env) : Bool :=
  sameShapeB (notesMask env) (regionsMask env)
  && (match env.inputs.staffLines with
      | some r => sameShapeB (layerMask env r) (regionsMask env)
      | none => true)
  && (match env.inputs.text with
      | some r => sameShapeB (layerMask env r) (regionsMask env)
      | none => true)

/-! ### Concrete invocations used by the witnesses and counterexamples -/

/-- Constant matrix. -/
def constMat (h w v : Nat) : Mat := ⟨h, w, fun _ _ => v⟩

/-- Shorthand for a resource at a given path. -/
def res (s : String) : Resource := ⟨s⟩

/-- Default validated settings of the job. -/
def stdSettings : Settings := ⟨16, 256, 256, 15, 2000⟩

/-- Pre-invocation stream bindings used by the concrete runs. -/
def cS0 : Streams := (StreamTarget.native 0, StreamTarget.native 1)

/-- A trainer call with nothing in it, used as a `headD` default. -/
def emptyCall : TrainerCall := ⟨⟨0, 0, fun _ _ => 0⟩, [], 0, 0, [], 0, 0, 0⟩

/-- Layer loader where every annotation layer decodes to an all-opaque
2×2 alpha channel. -/
def stdLoadAlpha : String → Mat := fun _ => constMat 2 2 255

/-- Base-image loader: a 3×3 pixel buffer (never inspected by the
wrapper). -/
def stdLoadImage : String → Mat := fun _ => constMat 3 3 7

/-- A fully connected invocation: staff and text inputs and model slots
all present, a log file requested and writable, trainer succeeding, and
every layer a 2×2 all-opaque alpha channel. -/
def envW : Env :=
  { inputs := ⟨res "image.png", res "background.png", res "symbols.png",
               res "regions.png", some (res "staff.png"), some (res "text.png")⟩
    outputs := ⟨res "bg_model.hdf5", res "sym_model.hdf5", [res "log.txt"],
                some (res "staff_model.hdf5"), some (res "text_model.hdf5")⟩
    settings := stdSettings
    loadImage := stdLoadImage
    loadAlpha := stdLoadAlpha
    fileHandlerOk := fun _ => true
    trainResult := .ok true }

/-- An invocation with the staff-lines input supplied but the
staff-model output slot absent (and no text port at all). -/
def envC1 : Env :=
  { inputs := ⟨res "image.png", res "background.png", res "symbols.png",
               res "regions.png", some (res "staff.png"), none⟩
    outputs := ⟨res "bg_model.hdf5", res "sym_model.hdf5", [], none, none⟩
    settings := stdSettings
    loadImage := stdLoadImage
    loadAlpha := stdLoadAlpha
    fileHandlerOk := fun _ => true
    trainResult := .ok true }

/-- An invocation in which the symbols layer is 1×2 while the
selected-regions layer (and every other layer) is 2×2: the two supplied
layers have different spatial dimensions, yet the shapes are
numpy-broadcast-compatible. -/
def envC2 : Env :=
  { inputs := ⟨res "image.png", res "background.png", res "symbols.png",
               res "regions.png", none, none⟩
    outputs := ⟨res "bg_model.hdf5", res "sym_model.hdf5", [], none, none⟩
    settings := stdSettings
    loadImage := stdLoadImage
    loadAlpha := fun s => if s = "symbols.png" then constMat 1 2 255
                          else constMat 2 2 255
    fileHandlerOk := fun _ => true
    trainResult := .ok true }

/-- An invocation in which the symbols layer is 2×3 while the
selected-regions layer is 3×3: a non-broadcast-compatible shape
mismatch. -/
def envC2e : Env :=
  { inputs := ⟨res "image.png", res "background.png", res "symbols.png",
               res "regions.png", none, none⟩
    outputs := ⟨res "bg_model.hdf5", res "sym_model.hdf5", [], none, none⟩
    settings := stdSettings
    loadImage := stdLoadImage
    loadAlpha := fun s => if s = "symbols.png" then constMat 2 3 255
                          else constMat 3 3 255
    fileHandlerOk := fun _ => true
    trainResult := .ok true }

/-- A well-formed invocation whose external trainer completes and
returns `False`. -/
def envC3 : Env :=
  { inputs := ⟨res "image.png", res "background.png", res "symbols.png",
               res "regions.png", none, none⟩
    outputs := ⟨res "bg_model.hdf5", res "sym_model.hdf5", [], none, none⟩
    settings := stdSettings
    loadImage := stdLoadImage
    loadAlpha := stdLoadAlpha
    fileHandlerOk := fun _ => true
    trainResult := .ok false }

/-- An invocation whose requested log destination cannot be opened by
`logging.FileHandler`. -/
def envC8 : Env :=
  { inputs := ⟨res "image.png", res "background.png", res "symbols.png",
               res "regions.png", none, none⟩
    outputs := ⟨res "bg_model.hdf5", res "sym_model.hdf5", [res "bad_log.txt"],
                none, none⟩
    settings := stdSettings
    loadImage := stdLoadImage
    loadAlpha := stdLoadAlpha
    fileHandlerOk := fun _ => false
    trainResult := .ok true }

/-- An invocation with the staff-model output slot requested but the
staff-lines input layer absent. -/
def envC9 : Env :=
  { inputs := ⟨res "image.png", res "background.png", res "symbols.png",
               res "regions.png", none, none⟩
    outputs := ⟨res "bg_model.hdf5", res "sym_model.hdf5", [],
                some (res "staff_model.hdf5"), none⟩
    settings := stdSettings
    loadImage := stdLoadImage
    loadAlpha := stdLoadAlpha
    fileHandlerOk := fun _ => true
    trainResult := .ok true }

/-! ### Basic facts about the embedded numpy operations -/

/-- Broadcast lookup agrees with the plain entry at in-bounds indices. -/
lemma bGet_eq (m : BMat) (i j : Nat) (hi : i < m.rows) (hj : j < m.cols) :
    bGet m i j = m.entry i j := by
  unfold bGet
  have h1 : (if m.rows = 1 then 0 else i) = i := by
    split
    · omega
    · rfl
  have h2 : (if m.cols = 1 then 0 else j) = j := by
    split
    · omega
    · rfl
  rw [h1, h2]

/-- On same-shape operands, `logical_and` succeeds and returns the
pointwise conjunction (through `bGet`, which is then the identity
lookup in bounds). -/
lemma logical_and_ok (x y : BMat) (hr : x.rows = y.rows) (hc : x.cols = y.cols) :
    logical_and x y = .ok ⟨y.rows, y.cols, fun i j => bGet x i j && bGet y i j⟩ := by
  unfold logical_and
  rw [hr, hc]
  simp [bcast]

/-- Any pixel set in the conjunction of two same-shape masks is set in
the right operand. -/
lemma logical_and_subset_right (x y m : BMat) (hr : x.rows = y.rows)
    (hc : x.cols = y.cols) (h : logical_and x y = .ok m) (i j : Nat)
    (hi : i < m.rows) (hj : j < m.cols) (hm : m.entry i j = true) :
    y.entry i j = true := by
  rw [logical_and_ok x y hr hc] at h
  injection h with h
  have hrows : m.rows = y.rows := by rw [← h]
  have hcols : m.cols = y.cols := by rw [← h]
  have hentry : m.entry i j = (bGet x i j && bGet y i j) := by rw [← h]
  rw [hentry] at hm
  rw [Bool.and_eq_true] at hm
  have hy := hm.2
  rw [bGet_eq y i j (hrows ▸ hi) (hcols ▸ hj)] at hy
  exact hy

/-- A non-broadcastable dimension pair makes `logical_and` raise. -/
lemma logical_and_none (x y : BMat)
    (h : bcast x.rows y.rows = none ∨ bcast x.cols y.cols = none) :
    logical_and x y = .error "ValueError: operands could not be broadcast together" := by
  unfold logical_and
  rcases h with h | h
  · rw [h]
  · rw [h]
    rcases bcast x.rows y.rows with _ | a <;> rfl

/-- A pair of masks flagged by `maskBcastFails` makes `logical_and`
raise the broadcast error. -/
lemma logical_and_error_of_fail (x y : BMat)
    (h : maskBcastFails x y = true) :
    logical_and x y
      = .error "ValueError: operands could not be broadcast together" := by
  apply logical_and_none
  unfold maskBcastFails at h
  rcases hr : bcast x.rows y.rows with _ | a
  · exact Or.inl rfl
  · rcases hc : bcast x.cols y.cols with _ | b
    · exact Or.inr rfl
    · rw [hr, hc] at h
      simp at h

/-- A pair of masks not flagged by `maskBcastFails` combines
successfully. -/
lemma logical_and_ok_of_not_fail (x y : BMat)
    (h : maskBcastFails x y = false) :
    ∃ m, logical_and x y = .ok m := by
  unfold maskBcastFails at h
  unfold logical_and
  rcases hr : bcast x.rows y.rows with _ | a <;> rw [hr] at h <;>
    rcases hc : bcast x.cols y.cols with _ | b <;> rw [hc] at h
  · simp at h
  · simp at h
  · simp at h
  · exact ⟨_, rfl⟩

/-- An optional class whose layer is flagged makes its ground-truth
step raise. -/
lemma optClassGt_error_of_fail (env : Env) (r : Resource) (name : String)
    (h : maskBcastFails (layerMask env r) (regionsMask env) = true) :
    optClassGt env (some r) name
      = .error "ValueError: operands could not be broadcast together" := by
  simp only [optClassGt]
  rw [logical_and_error_of_fail _ _ h]

/-- An optional class whose layer is not flagged (or is absent)
contributes successfully. -/
lemma optClassGt_ok_of_not_fail (env : Env) (r? : Option Resource) (name : String)
    (h : optBcastFails env r? = false) :
    ∃ part, optClassGt env r? name = .ok part := by
  cases r? with
  | none => exact ⟨[], rfl⟩
  | some r =>
    simp only [optBcastFails] at h
    obtain ⟨m, hm⟩ := logical_and_ok_of_not_fail _ _ h
    refine ⟨[(name, m)], ?_⟩
    simp only [optClassGt]
    rw [hm]

/-- When any supplied class layer cannot broadcast against the
selected-regions layer, the whole ground-truth derivation raises. -/
lemma deriveGt_error_of_layer_bcast (env : Env)
    (h : someLayerBcastFails env = true) :
    ∃ e, deriveGt env = .error e := by
  unfold someLayerBcastFails at h
  by_cases h1 : maskBcastFails (notesMask env) (regionsMask env) = true
  · refine ⟨"ValueError: operands could not be broadcast together", ?_⟩
    unfold deriveGt
    rw [logical_and_error_of_fail _ _ h1]
  · rw [Bool.not_eq_true] at h1
    rw [h1, Bool.false_or] at h
    obtain ⟨m, hm⟩ := logical_and_ok_of_not_fail _ _ h1
    by_cases h2 : optBcastFails env env.inputs.staffLines = true
    · rcases hst : env.inputs.staffLines with _ | r
      · rw [hst] at h2
        simp [optBcastFails] at h2
      · rw [hst] at h2
        simp only [optBcastFails] at h2
        refine ⟨"ValueError: operands could not be broadcast together", ?_⟩
        unfold deriveGt
        rw [hm]
        simp only []
        rw [hst, optClassGt_error_of_fail env r _ h2]
    · rw [Bool.not_eq_true] at h2
      rw [h2, Bool.false_or] at h
      obtain ⟨sp, hsp⟩ := optClassGt_ok_of_not_fail env _ "staff" h2
      rcases htx : env.inputs.text with _ | r
      · rw [htx] at h
        simp [optBcastFails] at h
      · rw [htx] at h
        simp only [optBcastFails] at h
        refine ⟨"ValueError: operands could not be broadcast together", ?_⟩
        unfold deriveGt
        rw [hm]
        simp only []
        rw [hsp]
        simp only []
        rw [htx, optClassGt_error_of_fail env r _ h]

/-- When no supplied class layer is flagged, the whole ground-truth
derivation succeeds. -/
lemma deriveGt_ok_of_not_fail (env : Env)
    (h : someLayerBcastFails env = false) :
    ∃ l, deriveGt env = .ok l := by
  unfold someLayerBcastFails at h
  rw [Bool.or_eq_false_iff, Bool.or_eq_false_iff] at h
  obtain ⟨⟨h1, h2⟩, h3⟩ := h
  obtain ⟨m, hm⟩ := logical_and_ok_of_not_fail _ _ h1
  obtain ⟨sp, hsp⟩ := optClassGt_ok_of_not_fail env _ "staff" h2
  obtain ⟨tp, htp⟩ := optClassGt_ok_of_not_fail env _ "text" h3
  refine ⟨[("symbols", m), ("background", backgroundMask env)] ++ sp ++ tp, ?_⟩
  unfold deriveGt
  rw [hm]
  simp only []
  rw [hsp]
  simp only []
  rw [htp]

/-! ### Inversion lemmas for the ground-truth derivation -/

/-- Every entry contributed by the optional-class step comes from a
supplied optional layer ANDed with the regions mask. -/
lemma optClassGt_mem (env : Env) (r? : Option Resource) (name : String)
    (part : List (String × BMat)) (h : optClassGt env r? name = .ok part)
    (key : String) (m : BMat) (hmem : (key, m) ∈ part) :
    ∃ r, key = name ∧ r? = some r ∧
      logical_and (layerMask env r) (regionsMask env) = .ok m := by
  cases r? with
  | none =>
    simp only [optClassGt] at h
    injection h with h
    subst h
    simp at hmem
  | some r =>
    simp only [optClassGt] at h
    split at h
    · simp at h
    · rename_i mm heq
      injection h with h
      subst h
      simp only [List.mem_singleton, Prod.mk.injEq] at hmem
      obtain ⟨hk, hm⟩ := hmem
      subst hm
      exact ⟨r, hk, rfl, heq⟩

/-- The optional-class step contributes exactly its class name when the
port is connected, and nothing otherwise. -/
lemma optClassGt_keys (env : Env) (r? : Option Resource) (name : String)
    (part : List (String × BMat)) (h : optClassGt env r? name = .ok part) :
    part.map Prod.fst = (r?.map fun _ => name).toList := by
  cases r? with
  | none =>
    simp only [optClassGt] at h
    injection h with h
    subst h
    rfl
  | some r =>
    simp only [optClassGt] at h
    split at h
    · simp at h
    · injection h with h
      subst h
      rfl

/-- Inversion of a successful ground-truth derivation: each entry is
the background alpha mask, or a supplied layer ANDed with the regions
mask under its class key. -/
lemma deriveGt_mem (env : Env) (l : List (String × BMat))
    (h : deriveGt env = .ok l) (key : String) (m : BMat)
    (hmem : (key, m) ∈ l) :
    (key = "symbols" ∧ logical_and (notesMask env) (regionsMask env) = .ok m)
    ∨ (key = "background" ∧ m = backgroundMask env)
    ∨ (∃ r, key = "staff" ∧ env.inputs.staffLines = some r ∧
        logical_and (layerMask env r) (regionsMask env) = .ok m)
    ∨ (∃ r, key = "text" ∧ env.inputs.text = some r ∧
        logical_and (layerMask env r) (regionsMask env) = .ok m) := by
  unfold deriveGt at h
  split at h
  · simp at h
  · rename_i symbolsGt heq
    split at h
    · simp at h
    · rename_i staffPart heq2
      split at h
      · simp at h
      · rename_i textPart heq3
        injection h with h
        subst h
        rw [List.mem_append, List.mem_append] at hmem
        rcases hmem with (hmem | hmem) | hmem
        · simp only [List.mem_cons, List.not_mem_nil, or_false,
            Prod.mk.injEq] at hmem
          rcases hmem with ⟨hk, hm⟩ | ⟨hk, hm⟩
          · subst hk; subst hm; exact Or.inl ⟨rfl, heq⟩
          · subst hk; subst hm; exact Or.inr (Or.inl ⟨rfl, rfl⟩)
        · obtain ⟨r, hk, hr, hok⟩ := optClassGt_mem env _ _ _ heq2 key m hmem
          exact Or.inr (Or.inr (Or.inl ⟨r, hk, hr, hok⟩))
        · obtain ⟨r, hk, hr, hok⟩ := optClassGt_mem env _ _ _ heq3 key m hmem
          exact Or.inr (Or.inr (Or.inr ⟨r, hk, hr, hok⟩))

/-- The key list of a successful derivation: the two required classes
followed by the connected optional classes. -/
lemma deriveGt_keys (env : Env) (l : List (String × BMat))
    (h : deriveGt env = .ok l) :
    l.map Prod.fst =
      ["symbols", "background"]
      ++ (env.inputs.staffLines.map fun _ => "staff").toList
      ++ (env.inputs.text.map fun _ => "text").toList := by
  unfold deriveGt at h
  split at h
  · simp at h
  · rename_i symbolsGt heq
    split at h
    · simp at h
    · rename_i staffPart heq2
      split at h
      · simp at h
      · rename_i textPart heq3
        injection h with h
        subst h
        simp [optClassGt_keys env _ _ _ heq2, optClassGt_keys env _ _ _ heq3]

/-! ### State lemmas for the wrapped invocation body -/

/-- The `finally` clause restores the saved stream bindings on every
path through the body. -/
lemma runBody_streams (env : Env) (s0 : Streams) (h : List String) :
    (runBody env s0 h).streams = s0 := by
  unfold runBody
  split
  · rfl
  · split <;> rfl

/-- No path through the body touches the logger's handler list. -/
lemma runBody_handlers (env : Env) (s0 : Streams) (h : List String) :
    (runBody env s0 h).handlers = h := by
  unfold runBody
  split
  · rfl
  · split <;> rfl

/-- Every path through the body performs the stream redirection. -/
lemma runBody_redirected (env : Env) (s0 : Streams) (h : List String) :
    (runBody env s0 h).redirected = true := by
  unfold runBody
  split
  · rfl
  · split <;> rfl

/-- When the ground truth derives, the body issues exactly the one
trainer call, whether the trainer returns or raises. -/
lemma runBody_calls (env : Env) (s0 : Streams) (h : List String)
    (l : List (String × BMat)) (hE : deriveGt env = .ok l) :
    (runBody env s0 h).calls = [mkCall env l] := by
  unfold runBody
  rw [hE]
  rcases htr : env.trainResult with e | b <;> simp [htr]

/-- When the log sink attaches and the ground truth derives, the whole
invocation issues exactly the one trainer call built from them. -/
lemma run_calls_of_ok (env : Env) (s0 : Streams) (h0 : List String)
    (hlog : logSetupOk env = true) (l : List (String × BMat))
    (hE : deriveGt env = .ok l) :
    (run_my_task env s0 h0).calls = [mkCall env l] := by
  unfold run_my_task
  unfold logSetupOk at hlog
  rcases hlf : env.outputs.logFile with _ | ⟨r, rest⟩
  · exact runBody_calls env s0 h0 l hE
  · rw [hlf] at hlog
    simp only [] at hlog
    simp only []
    rw [if_pos hlog]
    exact runBody_calls env s0 _ l hE

/-- A successful `Except` computation carries a value. -/
lemma isOk_exists {α : Type} (x : Except String α) (h : x.isOk = true) :
    ∃ l, x = .ok l := by
  cases x with
  | error e => exact absurd h (by simp [Except.isOk, Except.toBool])
  | ok l => exact ⟨l, rfl⟩

/-! ### The claims -/

/-- C4: on every exit path of the invocation — normal return, failure
signal from the trainer, or an exception raised anywhere inside the
wrapped region — the process's standard-output and standard-error
bindings are restored to exactly the values they had before the
invocation entered. -/
theorem C4_streams_restored (env : Env) (s0 : Streams) (h0 : List String) :
    (run_my_task env s0 h0).streams = s0 := by
  unfold run_my_task
  split
  · exact runBody_streams env s0 h0
  · split
    · exact runBody_streams env s0 _
    · rfl

/-- C5 (amended): only the output-stream bindings are restored on exit;
the file-backed handler attached on entry is never removed, so the
logger's final handler list equals the pre-entry list extended by the
new handler whenever a log destination was supplied and attachable, and
equals the pre-entry list otherwise. -/
theorem C5_handlers_final_state (env : Env) (s0 : Streams) (h0 : List String) :
    (run_my_task env s0 h0).handlers =
      (match env.outputs.logFile with
       | [] => h0
       | r :: _ =>
           if env.fileHandlerOk r.resource_path then h0 ++ [r.resource_path]
           else h0) := by
  unfold run_my_task
  rcases hlf : env.outputs.logFile with _ | ⟨r, rest⟩
  · exact runBody_handlers env s0 h0
  · by_cases hfh : env.fileHandlerOk r.resource_path = true
    · simp [hfh, runBody_handlers]
    · simp [hfh]

/-- C5 (counterexample): an invocation that requests a writable log
file returns normally, yet the logger's handler list is no longer its
pre-invocation value (the file handler was attached and never
removed). -/
theorem C5_handler_not_removed :
    (run_my_task envW cS0 []).result = .ok true
    ∧ (run_my_task envW cS0 []).handlers ≠ [] :=
  ⟨rfl, by decide⟩

/-- C3 (code bug): the external trainer completes and signals failure
(returns `False`), the trainer is called exactly once, yet the
invocation returns success — the `status` variable is assigned and then
discarded by the unconditional `return True`. -/
theorem C3_trainer_failure_discarded :
    envC3.trainResult = .ok false
    ∧ (run_my_task envC3 cS0 []).result = .ok true
    ∧ (run_my_task envC3 cS0 []).calls.length = 1 :=
  ⟨rfl, rfl, by decide⟩

/-- C8 (amended): when a log destination is requested but the
file-backed handler cannot be created, the exception escapes before the
`try` block: the invocation aborts with an error, the trainer is never
called, the streams were never redirected, and no handler is
attached. -/
theorem C8_log_failure_aborts (env : Env) (s0 : Streams) (h0 : List String)
    (r : Resource) (rest : List Resource)
    (hlf : env.outputs.logFile = r :: rest)
    (hfh : env.fileHandlerOk r.resource_path = false) :
    (run_my_task env s0 h0).result.isOk = false
    ∧ (run_my_task env s0 h0).calls = []
    ∧ (run_my_task env s0 h0).streams = s0
    ∧ (run_my_task env s0 h0).handlers = h0
    ∧ (run_my_task env s0 h0).redirected = false := by
  unfold run_my_task
  simp only [hlf]
  rw [hfh]
  exact ⟨rfl, rfl, rfl, rfl, rfl⟩

/-- Witness for C8 (amended) at the concrete invocation `envC8`. -/
theorem C8_log_failure_aborts_witness :
    envC8.outputs.logFile = res "bad_log.txt" :: []
    ∧ envC8.fileHandlerOk (res "bad_log.txt").resource_path = false
    ∧ ((run_my_task envC8 cS0 []).result.isOk = false
       ∧ (run_my_task envC8 cS0 []).calls = []
       ∧ (run_my_task envC8 cS0 []).streams = cS0
       ∧ (run_my_task envC8 cS0 []).handlers = []
       ∧ (run_my_task envC8 cS0 []).redirected = false) :=
  ⟨rfl, rfl, C8_log_failure_aborts envC8 cS0 [] (res "bad_log.txt") [] rfl rfl⟩

/-- C8 (counterexample): a requested but unattachable log destination
does not let the invocation proceed to training — the trainer is never
called and the invocation fails, contrary to the claim that it proceeds
without the log sink. -/
theorem C8_log_failure_does_not_proceed :
    envC8.outputs.logFile.length = 1
    ∧ envC8.fileHandlerOk "bad_log.txt" = false
    ∧ (run_my_task envC8 cS0 []).calls = []
    ∧ (run_my_task envC8 cS0 []).result.isOk = false :=
  ⟨rfl, rfl, rfl, rfl⟩

/-- C2 (amended): no dimension check is performed.  When any supplied
class layer (symbols, staff or text) cannot be numpy-broadcast against
the selected-regions layer, the composition step itself raises, so the
invocation fails and the trainer is never called; and whenever no class
layer is flagged — which includes every broadcast-compatible mismatch
and every mismatch involving only the base image, whose dimensions are
never consulted — the invocation that attaches its log sink still
issues the trainer call. -/
theorem C2_no_shape_check (env : Env) (s0 : Streams) (h0 : List String) :
    (someLayerBcastFails env = true →
       (run_my_task env s0 h0).result.isOk = false
       ∧ (run_my_task env s0 h0).calls = [])
    ∧ (someLayerBcastFails env = false → logSetupOk env = true →
       (run_my_task env s0 h0).calls.length = 1) := by
  constructor
  · intro hfail
    obtain ⟨e, hD⟩ := deriveGt_error_of_layer_bcast env hfail
    unfold run_my_task
    rcases env.outputs.logFile with _ | ⟨r, rest⟩
    · simp only []
      unfold runBody
      rw [hD]
      exact ⟨rfl, rfl⟩
    · simp only []
      by_cases hfh : env.fileHandlerOk r.resource_path = true
      · rw [if_pos hfh]
        unfold runBody
        rw [hD]
        exact ⟨rfl, rfl⟩
      · rw [if_neg hfh]
        exact ⟨rfl, rfl⟩
  · intro hok hlog
    obtain ⟨l, hE⟩ := deriveGt_ok_of_not_fail env hok
    rw [run_calls_of_ok env s0 h0 hlog l hE]
    rfl

/-- Witness for C2 (amended): a 2×3 symbols layer against a 3×3
selected-regions layer aborts the invocation with no trainer call,
while the 1×2-versus-2×2 broadcast-compatible mismatch — whose base
image is 3×3, also differing from every layer — still reaches the
trainer. -/
theorem C2_no_shape_check_witness :
    (someLayerBcastFails envC2e = true
     ∧ ((run_my_task envC2e cS0 []).result.isOk = false
        ∧ (run_my_task envC2e cS0 []).calls = []))
    ∧ ((notesMask envC2).rows ≠ (regionsMask envC2).rows
       ∧ (envC2.loadImage envC2.inputs.image.resource_path).rows
           ≠ (regionsMask envC2).rows
       ∧ someLayerBcastFails envC2 = false
       ∧ logSetupOk envC2 = true
       ∧ (run_my_task envC2 cS0 []).calls.length = 1) :=
  ⟨⟨by decide, (C2_no_shape_check envC2e cS0 []).1 (by decide)⟩,
   ⟨by decide, by decide, by decide, by decide,
    (C2_no_shape_check envC2 cS0 []).2 (by decide) (by decide)⟩⟩

/-- C2 (counterexample): the 1×2 symbols layer and the 2×2
selected-regions layer have different spatial dimensions, yet the run
returns success and the trainer is called — the shapes silently
broadcast instead of failing. -/
theorem C2_mismatch_not_detected :
    (notesMask envC2).rows ≠ (regionsMask envC2).rows
    ∧ (run_my_task envC2 cS0 []).result = .ok true
    ∧ (run_my_task envC2 cS0 []).calls.length = 1 :=
  ⟨by decide, rfl, by decide⟩

/-- C9 (amended): every invocation that attaches its log sink and
derives its ground truth issues exactly one call to the external
trainer, passing the base image, the derived ground-truth mapping, the
patch height and width, the epoch cap, the per-class sample cap, the
batch size, and the output-path mapping built from the requested output
slots — whose class set may differ from the ground-truth mapping's. -/
theorem C9_single_trainer_call (env : Env) (s0 : Streams) (h0 : List String)
    (hlog : logSetupOk env = true) (hgt : (deriveGt env).isOk = true) :
    (run_my_task env s0 h0).calls = [mkCall env (gtD env)] := by
  obtain ⟨l, hE⟩ := isOk_exists _ hgt
  have hgtD : gtD env = l := by unfold gtD; rw [hE]
  rw [hgtD]
  exact run_calls_of_ok env s0 h0 hlog l hE

/-- Witness for C9 (amended) at the fully connected invocation. -/
theorem C9_single_trainer_call_witness :
    logSetupOk envW = true
    ∧ (deriveGt envW).isOk = true
    ∧ (run_my_task envW cS0 []).calls = [mkCall envW (gtD envW)] :=
  ⟨by decide, by decide, C9_single_trainer_call envW cS0 [] (by decide) (by decide)⟩

/-- C9 (counterexample): with the staff-model output slot requested but
no staff-lines input layer, the one trainer call receives an
output-path mapping whose class set contains `staff` while the
ground-truth mapping's does not — the two mappings do not match. -/
theorem C9_mappings_class_sets_differ :
    (run_my_task envC9 cS0 []).calls.map (fun c => c.gt.map Prod.fst)
      = [["symbols", "background"]]
    ∧ (run_my_task envC9 cS0 []).calls.map (fun c => c.output_path.map Prod.fst)
      = [["background", "symbols", "staff"]] :=
  ⟨by decide, by decide⟩

/-- C10: an empty `outputs['Log File']` list attaches no file handler,
yet the invocation still redirects the output streams into the logger
and still issues the training call. -/
theorem C10_empty_log_list_tolerated (env : Env) (s0 : Streams) (h0 : List String)
    (hlf : env.outputs.logFile = [])
    (hgt : (deriveGt env).isOk = true) :
    (run_my_task env s0 h0).handlers = h0
    ∧ (run_my_task env s0 h0).redirected = true
    ∧ (run_my_task env s0 h0).calls.length = 1 := by
  obtain ⟨l, hE⟩ := isOk_exists _ hgt
  unfold run_my_task
  rw [hlf]
  refine ⟨runBody_handlers env s0 h0, runBody_redirected env s0 h0, ?_⟩
  rw [runBody_calls env s0 h0 l hE]
  rfl

/-- Witness for C10 at a concrete invocation with an empty log-file
list. -/
theorem C10_empty_log_list_tolerated_witness :
    envC1.outputs.logFile = []
    ∧ (deriveGt envC1).isOk = true
    ∧ ((run_my_task envC1 cS0 ["pre"]).handlers = ["pre"]
       ∧ (run_my_task envC1 cS0 ["pre"]).redirected = true
       ∧ (run_my_task envC1 cS0 ["pre"]).calls.length = 1) :=
  ⟨rfl, by decide, C10_empty_log_list_tolerated envC1 cS0 ["pre"] rfl (by decide)⟩

/-- C1 (amended): each optional class is present in the ground-truth
mapping iff its annotation-layer input was supplied, and present in the
output-path mapping iff its output slot was requested; the two presence
checks are independent of each other. -/
theorem C1_optional_class_presence (env : Env)
    (hok : (deriveGt env).isOk = true) :
    (("staff" ∈ (gtD env).map Prod.fst) ↔ env.inputs.staffLines.isSome = true)
    ∧ (("text" ∈ (gtD env).map Prod.fst) ↔ env.inputs.text.isSome = true)
    ∧ (("staff" ∈ (buildOutputPaths env.outputs).map Prod.fst)
        ↔ env.outputs.staffLinesModel.isSome = true)
    ∧ (("text" ∈ (buildOutputPaths env.outputs).map Prod.fst)
        ↔ env.outputs.textModel.isSome = true) := by
  obtain ⟨l, hE⟩ := isOk_exists _ hok
  have hgtD : gtD env = l := by unfold gtD; rw [hE]
  have hkeys := deriveGt_keys env l hE
  rw [hgtD, hkeys]
  unfold buildOutputPaths
  rcases env.inputs.staffLines with _ | r1 <;>
  rcases env.inputs.text with _ | r2 <;>
  rcases env.outputs.staffLinesModel with _ | r3 <;>
  rcases env.outputs.textModel with _ | r4 <;>
  refine ⟨?_, ?_, ?_, ?_⟩ <;> simp

/-- Witness for C1 (amended) at a concrete invocation with a staff
input but no staff output slot. -/
theorem C1_optional_class_presence_witness :
    (deriveGt envC1).isOk = true
    ∧ ((("staff" ∈ (gtD envC1).map Prod.fst)
          ↔ envC1.inputs.staffLines.isSome = true)
       ∧ (("text" ∈ (gtD envC1).map Prod.fst)
          ↔ envC1.inputs.text.isSome = true)
       ∧ (("staff" ∈ (buildOutputPaths envC1.outputs).map Prod.fst)
          ↔ envC1.outputs.staffLinesModel.isSome = true)
       ∧ (("text" ∈ (buildOutputPaths envC1.outputs).map Prod.fst)
          ↔ envC1.outputs.textModel.isSome = true)) :=
  ⟨by decide, C1_optional_class_presence envC1 (by decide)⟩

/-- C1 (counterexample): with the staff-lines input supplied and the
staff-model output slot absent, the plan passed to the trainer does not
exclude `staff`: the ground-truth mapping contains it (only the
output-path mapping omits it). -/
theorem C1_staff_in_gt_without_output_slot :
    envC1.inputs.staffLines.isSome = true
    ∧ envC1.outputs.staffLinesModel = none
    ∧ (run_my_task envC1 cS0 []).calls.map (fun c => c.gt.map Prod.fst)
        = [["symbols", "background", "staff"]]
    ∧ (run_my_task envC1 cS0 []).calls.map (fun c => c.output_path.map Prod.fst)
        = [["background", "symbols"]] :=
  ⟨rfl, rfl, by decide, by decide⟩

/-- C6: in any invocation whose layers all decode to the
selected-regions layer's dimensions, every pixel set in the ground
truth of a non-background class is also set in the selection mask. -/
theorem C6_gt_subset_selection (env : Env) (hsh : shapesOk env = true)
    (key : String) (m : BMat) (hmem : (key, m) ∈ gtD env)
    (hk : key ≠ "background") (i j : Nat) (hi : i < m.rows) (hj : j < m.cols)
    (hm : m.entry i j = true) :
    (regionsMask env).entry i j = true := by
  unfold gtD at hmem
  rcases hE : deriveGt env with e | l
  · rw [hE] at hmem; simp at hmem
  · rw [hE] at hmem
    unfold shapesOk at hsh
    rw [Bool.and_eq_true, Bool.and_eq_true] at hsh
    obtain ⟨⟨h1, h2⟩, h3⟩ := hsh
    rcases deriveGt_mem env l hE key m hmem with
      ⟨hkey, hok⟩ | ⟨hkey, _⟩ | ⟨r, hkey, hr, hok⟩ | ⟨r, hkey, hr, hok⟩
    · simp only [sameShapeB, Bool.and_eq_true, beq_iff_eq] at h1
      exact logical_and_subset_right _ _ _ h1.1 h1.2 hok i j hi hj hm
    · exact absurd hkey hk
    · rw [hr] at h2
      simp only [sameShapeB, Bool.and_eq_true, beq_iff_eq] at h2
      exact logical_and_subset_right _ _ _ h2.1 h2.2 hok i j hi hj hm
    · rw [hr] at h3
      simp only [sameShapeB, Bool.and_eq_true, beq_iff_eq] at h3
      exact logical_and_subset_right _ _ _ h3.1 h3.2 hok i j hi hj hm

/-- The staff ground-truth entry the derivation produces for `envW`. -/
def staffGtW : BMat :=
  ⟨2, 2, fun i j =>
    bGet (layerMask envW (res "staff.png")) i j && bGet (regionsMask envW) i j⟩

/-- Witness for C6 at the fully connected invocation, on the staff
class at pixel (0, 0). -/
theorem C6_gt_subset_selection_witness :
    shapesOk envW = true
    ∧ ("staff", staffGtW) ∈ gtD envW
    ∧ "staff" ≠ "background"
    ∧ 0 < staffGtW.rows
    ∧ 0 < staffGtW.cols
    ∧ staffGtW.entry 0 0 = true
    ∧ (regionsMask envW).entry 0 0 = true := by
  have hmem : ("staff", staffGtW) ∈ gtD envW :=
    List.Mem.tail _ (List.Mem.tail _ (List.Mem.head _))
  exact ⟨by decide, hmem, by decide, by decide, by decide, by decide,
    C6_gt_subset_selection envW (by decide) "staff" staffGtW hmem (by decide)
      0 0 (by decide) (by decide) (by decide)⟩

/-- C7: the background class's ground truth is the background layer's
full-opacity alpha test alone — the selection mask is not ANDed against
it, unlike every other class. -/
theorem C7_background_not_region_restricted (env : Env) (m : BMat)
    (hmem : ("background", m) ∈ gtD env) :
    m = backgroundMask env := by
  unfold gtD at hmem
  rcases hE : deriveGt env with e | l
  · rw [hE] at hmem; simp at hmem
  · rw [hE] at hmem
    rcases deriveGt_mem env l hE "background" m hmem with
      ⟨hkey, _⟩ | ⟨_, hm⟩ | ⟨r, hkey, _, _⟩ | ⟨r, hkey, _, _⟩
    · exact absurd hkey (by decide)
    · exact hm
    · exact absurd hkey (by decide)
    · exact absurd hkey (by decide)

/-- The background ground-truth entry of `envW`, written as the bare
alpha threshold of the decoded background layer. -/
def bgMaskW : BMat := alphaEq255 (constMat 2 2 255)

/-- Witness for C7 at the fully connected invocation. -/
theorem C7_background_not_region_restricted_witness :
    (("background", bgMaskW) ∈ gtD envW) ∧ bgMaskW = backgroundMask envW := by
  have hmem : ("background", bgMaskW) ∈ gtD envW :=
    List.Mem.tail _ (List.Mem.head _)
  exact ⟨hmem, C7_background_not_region_restricted envW bgMaskW hmem⟩

end Calvo
